import Mathlib

/-
Shallow embedding of the meteoswiss Home Assistant integration
(custom_components/meteoswiss: const.py, weather.py, sensor.py, __init__.py).

Python dictionaries with string keys are modelled as association lists with
unique keys; raw JSON-ish values (string, number, None) are modelled by the
inductive type RawValue; Python exceptions are modelled by the Except monad,
with each try/except block of the source translated to a match on the result
of the risky operation.  Python floats are modelled as rationals: none of the
verified properties depend on rounding, only on whether a conversion succeeds
and which record supplies the value.
-/

namespace Meteoswiss

/-! ## Python value and dictionary model -/

/-- A raw value held in a station-parameter record: a string, a number, or
Python None.  The upstream feed delivers strings, numbers, or None. -/
inductive RawValue
  | none
  | str (s : String)
  | num (q : ℚ)
deriving DecidableEq, Repr

/-- A station-parameter record: a flat mapping from short parameter codes
(such as tre200s0) to raw values, modelled as an association list with the
first binding of a key the visible one. -/
abbrev Record := List (String × RawValue)

/-- Dictionary lookup, Python d.get(k): the value at the first matching key,
or none. -/
def dget {α : Type} (d : List (String × α)) (k : String) : Option α :=
  match d with
  | [] => Option.none
  | (k1, v1) :: rest => if k1 = k then some v1 else dget rest k

/-- Dictionary update, Python d[k] = v: replace the first binding of k, or
append a new binding when k is absent. -/
def dset {α : Type} (d : List (String × α)) (k : String) (v : α) :
    List (String × α) :=
  match d with
  | [] => [(k, v)]
  | (k1, v1) :: rest => if k1 = k then (k, v) :: rest else (k1, v1) :: dset rest k v

/-- Python exceptions that the modelled code can raise. -/
inductive PyExc
  | keyError (k : String)
  | valueError
  | typeError
deriving DecidableEq, Repr

/-- Python subscription row[name] on a dict: raises KeyError when the key is
absent. -/
def getItem (row : Record) (k : String) : Except PyExc RawValue :=
  match dget row k with
  | some v => Except.ok v
  | Option.none => Except.error (PyExc.keyError k)

/-! ## Numeric conversion (Python float()) -/

/-- Value of a list of decimal digit characters. -/
def digitsVal (l : List Char) : Nat :=
  l.foldl (fun a c => a * 10 + (c.toNat - 48)) 0

/-- Decimal digit test. -/
def isDigitCh (c : Char) : Bool :=
  decide (48 ≤ c.toNat) && decide (c.toNat ≤ 57)

/-- Parse an unsigned decimal literal: digits with an optional fractional
part; at least one digit must be present. -/
def parseUnsigned (cs : List Char) : Option ℚ :=
  let intPart := cs.takeWhile isDigitCh
  let rest := cs.drop intPart.length
  match rest with
  | [] =>
    if intPart.isEmpty then Option.none
    else some (digitsVal intPart : ℚ)
  | c :: frac =>
    if c = '.' && frac.all isDigitCh && (!intPart.isEmpty || !frac.isEmpty) then
      some ((digitsVal intPart : ℚ) + (digitsVal frac : ℚ) / ((10 : ℚ) ^ frac.length))
    else Option.none

/-- Parse a signed decimal literal, the fragment of Python float(str) the
upstream feed exercises (plain decimal numerals). -/
def parseDecimal (s : String) : Option ℚ :=
  match s.toList with
  | '-' :: rest => (parseUnsigned rest).map Neg.neg
  | '+' :: rest => parseUnsigned rest
  | cs => parseUnsigned cs

/-- Python float(value): a number converts to itself, a string is parsed as a
decimal (ValueError on failure), and None raises TypeError. -/
def pyFloat (v : RawValue) : Except PyExc ℚ :=
  match v with
  | RawValue.num q => Except.ok q
  | RawValue.str s =>
    match parseDecimal s with
    | some q => Except.ok q
    | Option.none => Except.error PyExc.valueError
  | RawValue.none => Except.error PyExc.typeError

/-! ## const.py -/

/-- Integration domain constant DOMAIN from const.py. -/
def DOMAIN : String := "meteoswiss"

/-- Key CONF_REAL_TIME_NAME from const.py. -/
def CONF_REAL_TIME_NAME : String := "real_time_name"

/-- Key CONF_REAL_TIME_PRECIPITATION_NAME imported from const.py by the
coordinator; only its distinctness from the other keys matters. -/
def CONF_REAL_TIME_PRECIPITATION_NAME : String := "real_time_precipitation_name"

/-- Continuous-failure threshold MAX_CONTINUOUS_ERROR_TIME = 60 * 60 seconds
from the coordinator module. -/
def MAX_CONTINUOUS_ERROR_TIME : ℚ := 60 * 60

/-- Home Assistant constant STATE_UNAVAILABLE. -/
def STATE_UNAVAILABLE : String := "unavailable"

/-- The Condition StrEnum of const.py: the named sky conditions. -/
inductive Condition
  | partly_cloudy
  | clear_night
  | cloudy
  | exceptional
  | fog
  | hail
  | lightning
  | lightning_rainy
  | pouring
  | rainy
  | snowy
  | snowy_rainy
  | sunny
  | windy
  | windy_variant
deriving DecidableEq, Repr

/-- The StrEnum value of each Condition member, i.e. what Python str() of the
member returns (const.py assigns partly_cloudy the value default). -/
def conditionStr : Condition → String
  | Condition.partly_cloudy => "default"
  | Condition.clear_night => "clear-night"
  | Condition.cloudy => "cloudy"
  | Condition.exceptional => "exceptional"
  | Condition.fog => "fog"
  | Condition.hail => "hail"
  | Condition.lightning => "lightning"
  | Condition.lightning_rainy => "lightning-rainy"
  | Condition.pouring => "pouring"
  | Condition.rainy => "rainy"
  | Condition.snowy => "snowy"
  | Condition.snowy_rainy => "snowy-rainy"
  | Condition.sunny => "sunny"
  | Condition.windy => "windy"
  | Condition.windy_variant => "windy-variant"

/-- CODE_TO_CONDITION_MAP from const.py: icon code to (Condition, description)
pairs, in source order.  Codes below 100 are day icons, codes from 101 the
night icons. -/
def CODE_TO_CONDITION_MAP : List (Int × Condition × String) := [
  (1, Condition.sunny, "sunny"),
  (2, Condition.partly_cloudy, "mostly sunny, some clouds"),
  (3, Condition.partly_cloudy, "partly sunny, thick passing clouds"),
  (4, Condition.partly_cloudy, "overcast"),
  (5, Condition.cloudy, "very cloudy"),
  (6, Condition.rainy, "sunny intervals,  isolated showers"),
  (7, Condition.snowy_rainy, "sunny intervals, isolated sleet"),
  (8, Condition.snowy, "sunny intervals, snow showers"),
  (9, Condition.rainy, "overcast, some rain showers"),
  (10, Condition.snowy_rainy, "overcast, some sleet"),
  (11, Condition.snowy, "overcast, some snow showers"),
  (12, Condition.lightning, "sunny intervals, chance of thunderstorms"),
  (13, Condition.lightning_rainy, "sunny intervals, possible thunderstorms"),
  (14, Condition.rainy, "very cloudy, light rain"),
  (15, Condition.snowy_rainy, "very cloudy, light sleet"),
  (16, Condition.snowy, "very cloudy, light snow showers"),
  (17, Condition.rainy, "very cloudy, intermittent rain"),
  (18, Condition.snowy_rainy, "very cloudy, intermittent sleet"),
  (19, Condition.snowy, "very cloudy, intermittent snow"),
  (20, Condition.pouring, "very overcast with rain"),
  (21, Condition.snowy_rainy, "very overcast with frequent sleet"),
  (22, Condition.snowy, "very overcast with heavy snow"),
  (23, Condition.lightning_rainy, "very overcast, slight chance of storms"),
  (24, Condition.lightning_rainy, "very overcast with storms"),
  (25, Condition.lightning_rainy, "very cloudy, very stormy"),
  (26, Condition.sunny, "high clouds"),
  (27, Condition.fog, "stratus"),
  (28, Condition.fog, "fog"),
  (29, Condition.rainy, "sunny intervals, scattered showers"),
  (30, Condition.snowy, "sunny intervals, scattered snow showers"),
  (31, Condition.snowy_rainy, "sunny intervals, scattered sleet"),
  (32, Condition.lightning_rainy, "sunny intervals, some showers"),
  (33, Condition.rainy, "short sunny intervals, frequent rain"),
  (34, Condition.snowy, "short sunny intervals, frequent snowfalls"),
  (35, Condition.cloudy, "overcast and dry"),
  (36, Condition.lightning, "partly sunny, slightly stormy"),
  (37, Condition.snowy, "partly sunny, stormy snow showers"),
  (38, Condition.lightning_rainy, "overcast, thundery showers"),
  (39, Condition.snowy_rainy, "overcast, thundery snow showers"),
  (40, Condition.lightning, "very cloudly, slightly stormy"),
  (41, Condition.lightning, "overcast, slightly stormy"),
  (42, Condition.snowy, "very cloudly, thundery snow showers"),
  (101, Condition.clear_night, "clear"),
  (102, Condition.partly_cloudy, "slightly overcast"),
  (103, Condition.partly_cloudy, "heavy cloud formations"),
  (104, Condition.partly_cloudy, "overcast"),
  (105, Condition.cloudy, "very cloudy"),
  (106, Condition.rainy, "overcast, scattered showers"),
  (107, Condition.snowy_rainy, "overcast, scattered rain and snow showers"),
  (108, Condition.snowy, "overcast, snow showers"),
  (109, Condition.rainy, "overcast, some showers"),
  (110, Condition.snowy_rainy, "overcast, some rain and snow showers"),
  (111, Condition.snowy, "overcast, some snow showers"),
  (112, Condition.lightning, "slightly stormy"),
  (113, Condition.lightning_rainy, "storms"),
  (114, Condition.rainy, "very cloudy, light rain"),
  (115, Condition.snowy_rainy, "very cloudy, light rain and snow  showers"),
  (116, Condition.snowy, "very cloudy, light snowfall"),
  (117, Condition.rainy, "very cloudy, intermittent rain"),
  (118, Condition.snowy_rainy, "very cloudy, intermittant mixed rain and snowfall"),
  (119, Condition.snowy, "very cloudy, intermittent snowfall"),
  (120, Condition.pouring, "very cloudy,  constant rain"),
  (121, Condition.snowy_rainy, "very cloudy, frequent rain and snowfall"),
  (122, Condition.snowy, "very cloudy, heavy snowfall"),
  (123, Condition.lightning_rainy, "very cloudy, slightly stormy"),
  (124, Condition.lightning_rainy, "very cloudy, stormy"),
  (125, Condition.lightning_rainy, "very cloudy, storms"),
  (126, Condition.cloudy, "high cloud"),
  (127, Condition.fog, "stratus"),
  (128, Condition.fog, "fog"),
  (129, Condition.rainy, "slightly overcast, scattered showers"),
  (130, Condition.snowy, "slightly overcast, scattered snowfall"),
  (131, Condition.snowy_rainy, "slightly overcast, rain and snow showers"),
  (132, Condition.lightning_rainy, "slightly overcast, some showers"),
  (133, Condition.rainy, "overcast, frequent snow showers"),
  (134, Condition.snowy, "overcast, frequent snow showers"),
  (135, Condition.cloudy, "overcast and dry"),
  (136, Condition.lightning, "slightly overcast, slightly stormy"),
  (137, Condition.snowy, "slightly overcast, stormy snow showers"),
  (138, Condition.lightning_rainy, "overcast, thundery showers"),
  (139, Condition.snowy_rainy, "overcast, thundery snow showers"),
  (140, Condition.lightning, "very cloudly, slightly stormy"),
  (141, Condition.lightning, "overcast, slightly stormy"),
  (142, Condition.snowy, "very cloudly, thundery snow showers")]

/-! ## weather.py: first-available value extraction -/

/-- Loop body of condition_name_to_first_value (weather.py lines 66 to 93),
in the exception monad: row subscription and float conversion may raise, and
each except-clause of the source is translated to the match arm that continues
with the remaining rows.  The handlers catch Exception, i.e. every PyExc. -/
def cnfv_loop (rows : List Record) (name : String) : Except PyExc (Option ℚ) :=
  match rows with
  | [] => Except.ok Option.none
  | row :: rest =>
    match getItem row name with
    | Except.error _ => cnfv_loop rest name
    | Except.ok value =>
      if value = RawValue.none ∨ value = RawValue.str "-" then
        cnfv_loop rest name
      else
        match pyFloat value with
        | Except.ok f => Except.ok (some f)
        | Except.error _ => cnfv_loop rest name

/-- condition_name_to_first_value (weather.py lines 59 to 93): the condition
argument is None or a list of records; if falsy (None or empty) the result is
None, otherwise the rows are scanned by cnfv_loop.  The error arm of the
match is unreachable (every exception is caught inside the loop, proved for
claim C9). -/
def condition_name_to_first_value (condition : Option (List Record))
    (name : String) : Option ℚ :=
  match condition with
  | Option.none => Option.none
  | some rows =>
    if rows.isEmpty then Option.none
    else
      match cnfv_loop rows name with
      | Except.ok r => r
      | Except.error _ => Option.none

/-! ## weather.py: condition classification -/

/-- The lookup CODE_TO_CONDITION_MAP.get(symbolId, pair of empty string and
None) projected to component zero (weather.py line 189): a None key is
hashable in Python, so dict.get simply returns the default for it.  The
result is the str() of the found Condition member, or the empty string. -/
def code_condition_str (symbolId : Option Int) : String :=
  match symbolId with
  | Option.none => ""
  | some c =>
    match (CODE_TO_CONDITION_MAP.find? (fun e => e.1 = c)).map (fun e => e.2.1) with
    | some cond => conditionStr cond
    | Option.none => ""

/-- Python idiom s or None on a string: None exactly when s is empty. -/
def pyStrOrNone (s : String) : Option String :=
  if s = "" then Option.none else some s

/-- MeteoSwissWeather.condition (weather.py lines 185 to 209) as a function of
the icon code read from the forecast payload: str of the table entry, with
empty-string coerced to None and None reported as STATE_UNAVAILABLE.  For an
integer-or-None symbolId no modelled operation can raise: dict.get with a
default never raises on a hashable key, so the except TypeError arm of the
source is unreachable and the embedding is total. -/
def weather_condition (symbolId : Option Int) : String :=
  match pyStrOrNone (code_condition_str symbolId) with
  | some cond => cond
  | Option.none => STATE_UNAVAILABLE

/-! ## sensor.py: named-station value extraction and availability -/

/-- MeteoSwissSensor.native_value (sensor.py lines 118 to 136) in the
exception monad: data starts at None; when the configured station is a key of
condition_by_station and its record is truthy, the record is subscripted by
the parameter code inside a try whose except-clause resets data to None.  The
function returns the Python value of data, so absence is RawValue.none. -/
def native_value_exc (condition_by_station : List (String × Record))
    (station : String) (dataId : String) : Except PyExc RawValue :=
  match dget condition_by_station station with
  | Option.none => Except.ok RawValue.none
  | some record =>
    if record.isEmpty then Except.ok RawValue.none
    else
      match getItem record dataId with
      | Except.ok v => Except.ok v
      | Except.error _ => Except.ok RawValue.none

/-- The value MeteoSwissSensor.native_value returns (the error arm is
unreachable, proved for claim C9). -/
def native_value (condition_by_station : List (String × Record))
    (station : String) (dataId : String) : RawValue :=
  match native_value_exc condition_by_station station dataId with
  | Except.ok v => v
  | Except.error _ => RawValue.none

/-- MeteoSwissSensor.available (sensor.py lines 138 to 156) in the exception
monad: available starts False, and becomes the test value-is-not-None when
the station record exists, is truthy, and the subscription does not raise;
the except-clause resets available to False. -/
def available_exc (condition_by_station : List (String × Record))
    (station : String) (dataId : String) : Except PyExc Bool :=
  match dget condition_by_station station with
  | Option.none => Except.ok false
  | some record =>
    if record.isEmpty then Except.ok false
    else
      match getItem record dataId with
      | Except.ok v => Except.ok (decide (v ≠ RawValue.none))
      | Except.error _ => Except.ok false

/-- The value MeteoSwissSensor.available returns. -/
def available (condition_by_station : List (String × Record))
    (station : String) (dataId : String) : Bool :=
  match available_exc condition_by_station station dataId with
  | Except.ok b => b
  | Except.error _ => false

/-! ## init module: MeteoSwissDataUpdateCoordinator -/

/-- A value stored in the first_error dictionary.  The source annotates the
dictionary as mapping to float or None but initializes both entries to the
Python boolean False, so all three shapes occur. -/
inductive FEVal
  | pyFalse
  | pyNone
  | t (x : ℚ)
deriving DecidableEq, Repr

/-- Numeric value of a first_error entry in the subtraction
time.time() - self.first_error of line 251: Python False is 0.  The entry is
provably not None at that line (the preceding lines replace None by the
current time); the pyNone arm is dead and returns 0, where Python would raise
TypeError. -/
def feSeconds : FEVal → ℚ
  | FEVal.pyFalse => 0
  | FEVal.pyNone => 0
  | FEVal.t x => x

/-- The mutable per-source error state owned by the coordinator: the
first_error and error_raised dictionaries, each keyed by the source name
constants. -/
structure CoordState where
  first_error : List (String × FEVal)
  error_raised : List (String × Bool)
deriving DecidableEq, Repr

/-- Coordinator construction (init lines 160 to 167): both dictionaries hold
both source keys; first_error entries start as Python False (not None,
despite the float-or-None annotation), error_raised entries start False. -/
def initState : CoordState :=
  { first_error := [(CONF_REAL_TIME_NAME, FEVal.pyFalse),
                    (CONF_REAL_TIME_PRECIPITATION_NAME, FEVal.pyFalse)],
    error_raised := [(CONF_REAL_TIME_NAME, false),
                     (CONF_REAL_TIME_PRECIPITATION_NAME, false)] }

/-- The coordinator configuration fields consulted by _async_update_data. -/
structure CoordConfig where
  post_code : String
  forecast_name : String
  weather_station : Option String
  real_time_weather_station_name : Option String
  precipitation_station : Option String
  real_time_precipitation_station_name : Option String
deriving DecidableEq, Repr

/-- The part of the upstream ClientResult the coordinator inspects: the
forecast payload (reduced to the current-weather icon code, the only field
the verified claims touch) and the per-station current-conditions mapping. -/
structure ClientResult where
  currentWeatherIcon : Option Int
  condition_by_station : List (String × Record)
deriving DecidableEq, Repr

/-- The merged snapshot _async_update_data returns: the fetched data with the
identifying metadata keys written into it (init lines 276 to 285). -/
structure Snapshot where
  data : ClientResult
  postcode : String
  forecast_name : String
  station : Option String
  real_time_name : Option String
  precipitation_station : Option String
  real_time_precipitation_name : Option String
deriving DecidableEq, Repr

/-- Issue-registry effects the coordinator can perform during a refresh. -/
inductive IssueEvent
  | create (id : String)
  | delete (id : String)
deriving DecidableEq, Repr

/-- Whether an issue event is a creation. -/
def IssueEvent.isCreate : IssueEvent → Bool
  | IssueEvent.create _ => true
  | IssueEvent.delete _ => false

/-- The issue identifier used on lines 256 and 271. -/
def issue_id (station name : String) : String :=
  station ++ "_" ++ name ++ "_provides_no_data_" ++ DOMAIN

/-- Truthiness of data at condition_by_station .get(station) (line 238):
falsy when the key is absent or the record is empty. -/
def recordTruthy (r : Option Record) : Bool :=
  match r with
  | Option.none => false
  | some record => !record.isEmpty

/-- One iteration of the per-source loop of _async_update_data (init lines
230 to 274) for one (station, name) pair, acting on the error state and
emitting issue-registry events.  The guard if station is false for a None or
empty-string station field.  Faithful points: the no-data branch first
replaces a None first_error entry by the current time, then compares now
minus the entry against the threshold; the raise guard of line 252 tests the
truthiness of the WHOLE error_raised dictionary (not self.error_raised),
which is the emptiness of the dictionary. -/
def updateSource (station : Option String) (name : String)
    (condition_by_station : List (String × Record)) (now : ℚ)
    (st : CoordState) : CoordState × List IssueEvent :=
  match station with
  | Option.none => (st, [])
  | some s =>
    if s = "" then (st, [])
    else if recordTruthy (dget condition_by_station s) = false then
      let fe0 := (dget st.first_error name).getD FEVal.pyNone
      let fe1 := if fe0 = FEVal.pyNone then FEVal.t now else fe0
      let fe' := dset st.first_error name fe1
      let last_error := now - feSeconds fe1
      if st.error_raised.isEmpty = true ∧ last_error > MAX_CONTINUOUS_ERROR_TIME then
        ({ first_error := fe', error_raised := dset st.error_raised name true },
         [IssueEvent.create (issue_id s name)])
      else
        ({ st with first_error := fe' }, [])
    else
      let er := (dget st.error_raised name).getD false
      ({ first_error := dset st.first_error name FEVal.pyNone,
         error_raised := dset st.error_raised name false },
       if er then [IssueEvent.delete (issue_id s name)] else [])

/-- _async_update_data (init lines 218 to 285): a fetch failure is re-raised
as UpdateFailed before any state is touched and no snapshot is produced;
otherwise the two configured sources are processed in order (weather first,
precipitation second) over the shared condition_by_station mapping, and the
metadata-merged snapshot is returned. -/
def async_update_data (cfg : CoordConfig) (st : CoordState)
    (fetch : Except String ClientResult) (now : ℚ) :
    CoordState × List IssueEvent × Except String Snapshot :=
  match fetch with
  | Except.error e => (st, [], Except.error ("UpdateFailed: " ++ e))
  | Except.ok data =>
    let r1 := updateSource cfg.weather_station CONF_REAL_TIME_NAME
      data.condition_by_station now st
    let r2 := updateSource cfg.precipitation_station CONF_REAL_TIME_PRECIPITATION_NAME
      data.condition_by_station now r1.1
    (r2.1, r1.2 ++ r2.2,
     Except.ok { data := data,
                 postcode := cfg.post_code,
                 forecast_name := cfg.forecast_name,
                 station := cfg.weather_station,
                 real_time_name := cfg.real_time_weather_station_name,
                 precipitation_station := cfg.precipitation_station,
                 real_time_precipitation_name := cfg.real_time_precipitation_station_name })

/-- Run a sequence of refresh cycles with a fixed configuration and a fixed
upstream condition_by_station mapping, at the given cycle times, collecting
all issue-registry events in order. -/
def runRefreshes (cfg : CoordConfig) (st : CoordState)
    (condition_by_station : List (String × Record)) (times : List ℚ) :
    CoordState × List IssueEvent :=
  times.foldl
    (fun acc t =>
      let r := async_update_data cfg acc.1
        (Except.ok { currentWeatherIcon := Option.none,
                     condition_by_station := condition_by_station }) t
      (r.1, acc.2 ++ r.2.1))
    (st, [])

/-! ## Spec-side definitions and concrete fixtures -/

/-- Written from the spec wording for the first-available policy (section
4.3): the value a single row yields, i.e. the numeric conversion of the value
at the parameter code when the code is present, the value is neither None nor
the sentinel, and the conversion succeeds; otherwise nothing. -/
def row_yield_value (name : String) (row : Record) : Option ℚ :=
  match dget row name with
  | Option.none => Option.none
  | some v =>
    if v = RawValue.none ∨ v = RawValue.str "-" then Option.none
    else (pyFloat v).toOption

/-- Fixture: a coordinator configured with only a weather station. -/
def cfg_weather_only : CoordConfig :=
  { post_code := "8001",
    forecast_name := "Zurich",
    weather_station := some "ABC",
    real_time_weather_station_name := some "Real ABC",
    precipitation_station := Option.none,
    real_time_precipitation_station_name := Option.none }

/-- Fixture: fourteen refresh times at a five-minute interval, spanning 65
minutes, so the one-hour threshold is crossed within the first thirteen
cycles. -/
def scenario_times : List ℚ :=
  [0, 300, 600, 900, 1200, 1500, 1800, 2100, 2400, 2700, 3000, 3300, 3600, 3900]

/-- Fixture: an upstream result whose condition_by_station is empty, the
no-data outcome for every station. -/
def no_data_result : ClientResult :=
  { currentWeatherIcon := Option.none, condition_by_station := [] }

end Meteoswiss

namespace Meteoswiss

/-! ## Helper lemmas -/

/-- Updating a key makes it visible to lookup. -/
theorem dget_dset_self {α : Type} (d : List (String × α)) (k : String) (v : α) :
    dget (dset d k v) k = some v := by
  induction d with
  | nil => simp [dget, dset]
  | cons p rest ih =>
    by_cases h : p.1 = k
    · simp [dget, dset, h]
    · simp [dget, dset, h, ih]

/-- The loop of condition_name_to_first_value computes, once its (unreachable)
error arm is projected away, exactly the first-available yield over the rows. -/
theorem cnfv_loop_findSome (rows : List Record) (name : String) :
    (match cnfv_loop rows name with
     | Except.ok r => r
     | Except.error _ => Option.none) = rows.findSome? (row_yield_value name) := by
  induction rows with
  | nil => rfl
  | cons row rest ih =>
    rw [List.findSome?_cons]
    unfold cnfv_loop getItem
    cases hd : dget row name with
    | none => simpa [row_yield_value, hd] using ih
    | some v =>
      by_cases hv : v = RawValue.none ∨ v = RawValue.str "-"
      · simpa [row_yield_value, hd, hv] using ih
      · cases hf : pyFloat v with
        | ok f => simp [row_yield_value, hd, hv, hf, Except.toOption]
        | error e => simpa [row_yield_value, hd, hv, hf, Except.toOption] using ih

/-- The loop of condition_name_to_first_value never escapes with an error:
every raising operation it performs sits inside a handler that continues the
scan. -/
theorem cnfv_loop_isOk (rows : List Record) (name : String) :
    (cnfv_loop rows name).isOk = true := by
  induction rows with
  | nil => rfl
  | cons row rest ih =>
    unfold cnfv_loop
    cases hg : getItem row name with
    | error e => simpa using ih
    | ok value =>
      by_cases hv : value = RawValue.none ∨ value = RawValue.str "-"
      · simpa [hv] using ih
      · cases hf : pyFloat value with
        | ok f => simp [hv, hf, Except.isOk, Except.toBool]
        | error e => simpa [hv, hf] using ih

/-! ## Claim theorems -/

/-- C3: first-available extraction scans the records in order and returns the
float conversion of the value in the first record where the code is present,
not None, not the sentinel, and convertible, skipping all other records; with
no yielding record (including the empty sequence and the None argument) it
returns absent. -/
theorem extract_first_available_follows_spec :
    (∀ (rows : List Record) (name : String),
       condition_name_to_first_value (some rows) name
         = rows.findSome? (row_yield_value name)) ∧
    (∀ name : String, condition_name_to_first_value Option.none name = Option.none) := by
  constructor
  · intro rows name
    have h := cnfv_loop_findSome rows name
    cases rows with
    | nil => rfl
    | cons row rest => simpa [condition_name_to_first_value] using h
  · intro name
    rfl

/-- C9 counterexample: under the named-station policy a present sentinel does
NOT map to the absent result: the lookup succeeds and the raw sentinel string
is returned, so the absent-mapping half of the claim fails even though no
exception escapes. -/
theorem named_station_sentinel_raw_not_absent :
    native_value [("WXY", [("rre150z0", RawValue.str "-")])] "WXY" "rre150z0"
      = RawValue.str "-"
    ∧ RawValue.str "-" ≠ RawValue.none :=
  ⟨rfl, by decide⟩

/-- C9 amended: value extraction never raises for any input records and
parameter code: both policies always return an ok result in the
exception-monad embedding.  Under the first-available policy a row whose key
is missing, whose value is None or the sentinel, or whose conversion fails is
skipped, so such rows map to absent; under the named-station policy a missing
station record, an empty record, or a missing parameter key map to absent
(None), while a present sentinel or unconvertible value is returned raw. -/
theorem extraction_safety_amended :
    (∀ (rows : List Record) (name : String), (cnfv_loop rows name).isOk = true)
    ∧ (∀ (condition_by_station : List (String × Record)) (station dataId : String),
        (native_value_exc condition_by_station station dataId).isOk = true)
    ∧ (∀ (row : Record) (rest : List Record) (name : String),
        row_yield_value name row = Option.none →
        condition_name_to_first_value (some (row :: rest)) name
          = condition_name_to_first_value (some rest) name)
    ∧ (∀ (condition_by_station : List (String × Record)) (station dataId : String)
        (record : Record), dget condition_by_station station = some record →
        record.isEmpty = false → dget record dataId = Option.none →
        native_value condition_by_station station dataId = RawValue.none) := by
  refine ⟨?_, ?_, ?_, ?_⟩
  · intro rows name
    exact cnfv_loop_isOk rows name
  · intro condition_by_station station dataId
    unfold native_value_exc
    cases dget condition_by_station station with
    | none => rfl
    | some record =>
      by_cases h : record.isEmpty
      · simp [h, Except.isOk, Except.toBool]
      · cases hg : getItem record dataId <;> simp [h, hg, Except.isOk, Except.toBool]
  · intro row rest name h
    have key : ∀ l : List Record,
        condition_name_to_first_value (some l) name
          = l.findSome? (row_yield_value name) := by
      intro l
      have hl := cnfv_loop_findSome l name
      cases l with
      | nil => rfl
      | cons a as => simpa [condition_name_to_first_value] using hl
    rw [key, key, List.findSome?_cons, h]
  · intro condition_by_station station dataId record hg hne hd
    unfold native_value native_value_exc getItem
    simp [hg, hne, hd]

/-- C9 amended witness: a sentinel row is skipped in favour of the next
convertible row, and a missing parameter key in a present non-empty record
yields the absent value None. -/
theorem extraction_safety_amended_witness :
    row_yield_value "tre200s0" [("tre200s0", RawValue.str "-")] = Option.none
    ∧ condition_name_to_first_value
        (some [[("tre200s0", RawValue.str "-")], [("tre200s0", RawValue.str "7.0")]])
        "tre200s0"
        = condition_name_to_first_value (some [[("tre200s0", RawValue.str "7.0")]]) "tre200s0"
    ∧ dget [("WXY", [("sre000z0", RawValue.str "5")])] "WXY"
        = some [("sre000z0", RawValue.str "5")]
    ∧ ([("sre000z0", RawValue.str "5")] : Record).isEmpty = false
    ∧ dget ([("sre000z0", RawValue.str "5")] : Record) "rre150z0" = Option.none
    ∧ native_value [("WXY", [("sre000z0", RawValue.str "5")])] "WXY" "rre150z0"
        = RawValue.none :=
  ⟨by decide,
   extraction_safety_amended.2.2.1 [("tre200s0", RawValue.str "-")]
     [[("tre200s0", RawValue.str "7.0")]] "tre200s0" (by decide),
   by decide, by decide, by decide,
   extraction_safety_amended.2.2.2 [("WXY", [("sre000z0", RawValue.str "5")])]
     "WXY" "rre150z0" [("sre000z0", RawValue.str "5")]
     (by decide) (by decide) (by decide)⟩

/-- C2 counterexample: the named-station sensor value does NOT apply the
sentinel rule: on a record holding the sentinel it returns the sentinel
string itself, not the absent value None. -/
theorem native_value_sentinel_counterexample :
    native_value [("ABC", [("tre200s0", RawValue.str "-")])] "ABC" "tre200s0"
      = RawValue.str "-"
    ∧ RawValue.str "-" ≠ RawValue.none := by
  exact ⟨rfl, by decide⟩

/-- C2 amended: the named-station sensor value returns absent (None) when the
station record is missing or empty or the parameter key is absent, and
otherwise returns the stored raw value unchanged: no sentinel filtering and
no numeric conversion. -/
theorem native_value_returns_raw (condition_by_station : List (String × Record))
    (station dataId : String) :
    native_value condition_by_station station dataId =
      (match dget condition_by_station station with
       | Option.none => RawValue.none
       | some record =>
         if record.isEmpty then RawValue.none
         else (dget record dataId).getD RawValue.none) := by
  unfold native_value native_value_exc getItem
  cases dget condition_by_station station with
  | none => rfl
  | some record =>
    by_cases h : record.isEmpty
    · simp [h]
    · cases hdd : dget record dataId <;> simp [h, hdd]

/-- C10: the named-station sensor availability is True exactly when the
station record exists, is non-empty, and maps the parameter code to a
non-None value; in particular the sentinel counts as available. -/
theorem sensor_available_characterization :
    (∀ (condition_by_station : List (String × Record)) (station dataId : String),
       available condition_by_station station dataId = true ↔
         ∃ record, dget condition_by_station station = some record
           ∧ record.isEmpty = false
           ∧ ∃ v, dget record dataId = some v ∧ v ≠ RawValue.none) ∧
    available [("ABC", [("tre200s0", RawValue.str "-")])] "ABC" "tre200s0" = true := by
  constructor
  · intro condition_by_station station dataId
    unfold available available_exc getItem
    cases hd : dget condition_by_station station with
    | none => simp
    | some record =>
      cases record with
      | nil => simp
      | cons p ps =>
        cases hv : dget (p :: ps) dataId with
        | none => simp [hv]
        | some v => simp [hv]
  · decide

/-- C7: classification of a null icon code or of a code absent from the table
yields the unavailable result, which differs from the string of every named
condition; for these inputs the classifier is a total function, so no
exception escapes. -/
theorem classify_unknown_unavailable :
    weather_condition Option.none = STATE_UNAVAILABLE
    ∧ (∀ c : Int, CODE_TO_CONDITION_MAP.find? (fun e => e.1 = c) = Option.none →
        weather_condition (some c) = STATE_UNAVAILABLE)
    ∧ (∀ cond : Condition, conditionStr cond ≠ STATE_UNAVAILABLE) := by
  refine ⟨rfl, ?_, ?_⟩
  · intro c hc
    simp [weather_condition, code_condition_str, pyStrOrNone, hc]
  · intro cond
    cases cond <;> decide

/-- C7 witness: the icon code 999 is absent from the table and classifies to
unavailable. -/
theorem classify_unknown_unavailable_witness :
    CODE_TO_CONDITION_MAP.find? (fun e => e.1 = (999 : Int)) = Option.none
    ∧ weather_condition (some 999) = STATE_UNAVAILABLE :=
  ⟨by decide, classify_unknown_unavailable.2.1 999 (by decide)⟩

/-- C4 counterexample: 101 and 101 - 100 = 1 are both in the table, yet the
night code 101 classifies to clear-night while its day counterpart 1
classifies to sunny, refuting the universal day/night pairing. -/
theorem night_pairing_counterexample :
    (CODE_TO_CONDITION_MAP.find? (fun e => e.1 = (101 : Int))).isSome = true
    ∧ (CODE_TO_CONDITION_MAP.find? (fun e => e.1 = (101 : Int) - 100)).isSome = true
    ∧ weather_condition (some 101) ≠ weather_condition (some ((101 : Int) - 100)) := by
  decide

/-- C4 amended: every code in the table classifies to the condition the table
associates with it, and every night code with a day counterpart in the table
classifies identically to that counterpart, except the two deliberate
day/night divergences 101 (clear night versus sunny) and 126 (night high
cloud is cloudy, day high clouds are sunny). -/
theorem classify_table_and_night_pairing :
    (∀ e ∈ CODE_TO_CONDITION_MAP, weather_condition (some e.1) = conditionStr e.2.1)
    ∧ (∀ e ∈ CODE_TO_CONDITION_MAP, 100 ≤ e.1 → e.1 ≠ 101 → e.1 ≠ 126 →
        weather_condition (some e.1) = weather_condition (some (e.1 - 100))) := by
  decide

/-- C4 amended witness: the night code 102 is in the table and classifies
like its day counterpart 2. -/
theorem classify_table_and_night_pairing_witness :
    ((102 : Int), Condition.partly_cloudy, "slightly overcast") ∈ CODE_TO_CONDITION_MAP
    ∧ (100 : Int) ≤ 102 ∧ ((102 : Int) ≠ 101) ∧ ((102 : Int) ≠ 126)
    ∧ weather_condition (some 102) = weather_condition (some ((102 : Int) - 100)) :=
  ⟨by decide, by decide, by decide, by decide,
   classify_table_and_night_pairing.2 (102, Condition.partly_cloudy, "slightly overcast")
     (by decide) (by decide) (by decide) (by decide)⟩

/-- C1 evaluation at the failing scenario: a weather-only configuration whose
station yields no data on fourteen consecutive five-minute cycles, crossing
the one-hour threshold, produces zero persistent-failure notifications, not
the exactly-one the spec requires; the raise guard of line 252 tests the
truthiness of the whole error_raised dictionary, which always holds two
entries, so the issue-creation branch is unreachable. -/
theorem persistent_failure_never_raised :
    ((runRefreshes cfg_weather_only initState [] scenario_times).2.countP
        IssueEvent.isCreate = 0)
    ∧ ((3900 : ℚ) - 0 > MAX_CONTINUOUS_ERROR_TIME) :=
  ⟨rfl, by norm_num [MAX_CONTINUOUS_ERROR_TIME]⟩

/-- C5 evaluation at the failing input: on the first no-data refresh after
construction the failure-start entry stays at the Python False it was
initialized to, instead of being set to the current time 100; the is-None
guard of line 247 never matches the False initial value. -/
theorem first_error_not_recorded_after_construction :
    dget (async_update_data cfg_weather_only initState
        (Except.ok no_data_result) 100).1.first_error CONF_REAL_TIME_NAME
      = some FEVal.pyFalse
    ∧ some FEVal.pyFalse ≠ some (FEVal.t 100) := by
  refine ⟨rfl, ?_⟩
  simp

/-- C6: on a refresh where the configured station has a non-empty record, the
per-source step clears the failure-start entry to None, resets the raised
flag to False, and emits the issue retraction exactly when the flag was
previously raised. -/
theorem nonempty_record_clears_failure_state
    (st : CoordState) (s name : String)
    (condition_by_station : List (String × Record)) (now : ℚ) (record : Record)
    (hs : s ≠ "") (hget : dget condition_by_station s = some record)
    (hne : record.isEmpty = false) :
    dget (updateSource (some s) name condition_by_station now st).1.first_error name
        = some FEVal.pyNone
    ∧ dget (updateSource (some s) name condition_by_station now st).1.error_raised name
        = some false
    ∧ (updateSource (some s) name condition_by_station now st).2
        = (if (dget st.error_raised name).getD false then
            [IssueEvent.delete (issue_id s name)] else []) := by
  unfold updateSource
  simp [hs, hget, recordTruthy, hne, dget_dset_self]

/-- C6 witness: a concrete success refresh from the initial state clears the
weather-source error state and retracts nothing, the flag not being raised. -/
theorem nonempty_record_clears_failure_state_witness :
    ("ABC" : String) ≠ ""
    ∧ dget [("ABC", [("x", RawValue.str "1.0")])] "ABC" = some [("x", RawValue.str "1.0")]
    ∧ ([("x", RawValue.str "1.0")] : Record).isEmpty = false
    ∧ (dget (updateSource (some "ABC") CONF_REAL_TIME_NAME
          [("ABC", [("x", RawValue.str "1.0")])] 0 initState).1.first_error
          CONF_REAL_TIME_NAME = some FEVal.pyNone
       ∧ dget (updateSource (some "ABC") CONF_REAL_TIME_NAME
           [("ABC", [("x", RawValue.str "1.0")])] 0 initState).1.error_raised
           CONF_REAL_TIME_NAME = some false
       ∧ (updateSource (some "ABC") CONF_REAL_TIME_NAME
           [("ABC", [("x", RawValue.str "1.0")])] 0 initState).2
           = (if (dget initState.error_raised CONF_REAL_TIME_NAME).getD false then
               [IssueEvent.delete (issue_id "ABC" CONF_REAL_TIME_NAME)] else [])) :=
  ⟨by decide, by decide, by decide,
   nonempty_record_clears_failure_state initState "ABC" CONF_REAL_TIME_NAME
     [("ABC", [("x", RawValue.str "1.0")])] 0 [("x", RawValue.str "1.0")]
     (by decide) (by decide) (by decide)⟩

/-- C8: an upstream fetch failure makes the whole refresh fail: the coordinator
re-raises it as UpdateFailed, produces no snapshot, performs no issue-registry
action, and leaves the per-source error state exactly as it was. -/
theorem fetch_failure_fails_whole_refresh (cfg : CoordConfig) (st : CoordState)
    (e : String) (now : ℚ) :
    async_update_data cfg st (Except.error e) now
      = (st, [], Except.error ("UpdateFailed: " ++ e)) :=
  rfl

end Meteoswiss
